import Mathlib

/-!
Shallow embedding of the Fin-NeuroSim orchestration layer
(`src/fin_neurosim`), together with theorems settling the spec claims.

Conventions: Python floats are embedded as `ℚ` (and as `ℝ` where the
source takes a square root); Python dicts appear either as association
lists with last-binding-wins lookup or as total functions with an
explicit default; raising an exception is an `Except.error` value.
-/

/- ===== String helpers (Python `str.lower`, `in`, `" ".join`) ===== -/

/-- Python `str.lower()` on the character sequence of a string. -/
def strLower (s : String) : String := String.mk (s.data.map Char.toLower)

/-- Whether the character list `text` starts with `pat`. -/
def leadsList (pat text : List Char) : Bool :=
  match pat, text with
  | [], _ => true
  | _ :: _, [] => false
  | p :: ps, t :: ts => p == t && leadsList ps ts

/-- Whether `pat` occurs contiguously inside `text`. -/
def subList (pat text : List Char) : Bool :=
  match text with
  | [] => pat.isEmpty
  | _ :: ts => leadsList pat text || subList pat ts

/-- Python substring test `pat in hay`. -/
def strContains (hay pat : String) : Bool := subList pat.toList hay.toList

/-- Python `max(0.0, min(1.0, x))` over rationals. -/
def clamp01 (x : ℚ) : ℚ := max 0 (min 1 x)

/- ===== Data model (src/fin_neurosim/schemas) ===== -/

/-- `SourceSummary` from `schemas/agent_output.py`: source name with
freshness and reliability scores. -/
structure SourceSummary where
  source : String
  freshness : ℚ
  reliability : ℚ
deriving DecidableEq

/-- `AgentOutput` from `schemas/agent_output.py` (the timestamp and raw
payload carry no information used by the core computations). -/
structure AgentOutput where
  agent_id : String
  signal_type : String
  risk_level : String
  confidence : ℚ
  key_drivers : List String
  source_summary : List SourceSummary
  reasoning : String
deriving DecidableEq

/-- `CircuitBreakerEvent` from `schemas/agent_output.py`; the
`contradiction_count` field embeds `details["contradiction_count"]`.
Python builds `conflicting_agents` as `list(set(...))`, whose iteration
order is unspecified, so only membership in the list is meaningful. -/
structure CircuitBreakerEvent where
  event : String
  conflicting_agents : List String
  arbiter : String
  action : String
  contradiction_count : ℕ
deriving DecidableEq

/-- `ActionPlan` from `schemas/final_report.py`. -/
structure ActionPlan where
  priority : String
  action : String
  rationale : String
deriving DecidableEq

/- ===== RateLimiter (src/fin_neurosim/data_sources/rate_limiter.py) ===== -/

/-- One registered budget, the value stored by `RateLimiter.add_limit`. -/
structure RateLimit where
  max_calls : ℕ
  time_window : ℚ
deriving DecidableEq

/-- The pruning comprehension in `wait_if_needed`: keep timestamps with
`call_time > now - time_window`. -/
def prune_history (time_window now : ℚ) (hist : List ℚ) : List ℚ :=
  hist.filter (fun t => decide (now - time_window < t))

/-- Python `min(history)`; only applied to non-empty histories. -/
def oldest_call (hist : List ℚ) : ℚ :=
  match hist with
  | [] => 0
  | x :: xs => xs.foldl min x

/-- `wait_time = time_window - (now - oldest_call) + 0.1` from
`wait_if_needed`. -/
def wait_time (lim : RateLimit) (now : ℚ) (hist : List ℚ) : ℚ :=
  lim.time_window - (now - oldest_call hist) + 1/10

/-- Shared state of one registered resource name: its timestamp history,
the wake deadlines of callers suspended inside `wait_if_needed` (at the
`await asyncio.sleep`), and a monotone clock. -/
structure RLState where
  hist : List ℚ
  sleepers : List ℚ
  clock : ℚ
deriving DecidableEq

/-- Interleaving semantics of `wait_if_needed` for one registered name.
The body runs atomically except at `await asyncio.sleep(wait_time)`, the
only suspension point, so one call is either a single atomic
prune-check-append block (no sleep needed) or an atomic prune-check that
registers a wake deadline followed later by an atomic append at the wake
time. The append after the sleep re-reads the clock (`time.time()`) and
performs no re-check. -/
inductive RLStep (lim : RateLimit) : RLState → RLState → Prop
  | enter_no_wait (s : RLState) (now : ℚ) (pruned : List ℚ)
      (hclock : s.clock ≤ now)
      (hpruned : pruned = prune_history lim.time_window now s.hist)
      (hroom : pruned.length < lim.max_calls ∨ wait_time lim now pruned ≤ 0) :
      RLStep lim s ⟨pruned ++ [now], s.sleepers, now⟩
  | enter_wait (s : RLState) (now : ℚ) (pruned : List ℚ) (wake : ℚ)
      (hclock : s.clock ≤ now)
      (hpruned : pruned = prune_history lim.time_window now s.hist)
      (hfull : lim.max_calls ≤ pruned.length)
      (hwait : 0 < wait_time lim now pruned)
      (hwake : wake = now + wait_time lim now pruned) :
      RLStep lim s ⟨pruned, s.sleepers ++ [wake], now⟩
  | wake_append (s : RLState) (w t : ℚ) (rest : List ℚ)
      (hmem : w ∈ s.sleepers)
      (hclock : s.clock ≤ t)
      (hle : w ≤ t)
      (hrest : rest = s.sleepers.erase w) :
      RLStep lim s ⟨s.hist ++ [t], rest, t⟩

/-- Number of recorded timestamps inside the rolling window `(t - w, t]`. -/
def count_in_window (hist : List ℚ) (t w : ℚ) : ℕ :=
  (hist.filter (fun x => decide (t - w < x) && decide (x ≤ t))).length

/- ===== CircuitBreaker (src/fin_neurosim/core/circuit_breaker.py) ===== -/

/-- `CircuitBreaker.CONTRADICTION_RULES`: ordered pairs of agent ids
mapped to the designated arbiter, in dict insertion order. -/
def CONTRADICTION_RULES : List ((String × String) × String) :=
  [(("RiskAgent", "TechnicalAgent"), "MacroAgent"),
   (("TechnicalAgent", "RiskAgent"), "MacroAgent"),
   (("MacroAgent", "SentimentAgent"), "RiskAgent"),
   (("SentimentAgent", "MacroAgent"), "RiskAgent")]

/-- `RISK_LEVELS.get(s, 2)`: the 4-point ordinal scale with default 2;
callers pass an already lowercased string. -/
def risk_levels_get (s : String) : ℤ :=
  if s = "critical" then 4
  else if s = "high" then 3
  else if s = "medium" then 2
  else if s = "low" then 1
  else 2

/-- The antonym table `opposite_pairs` in `_is_contradictory`. -/
def opposite_pairs : List (String × String) :=
  [("bullish", "bearish"), ("rise", "fall"), ("growth", "decline"),
   ("positive", "negative"), ("buy", "sell"), ("crash", "rally")]

/-- `CircuitBreaker._is_contradictory`: risk-ordinal distance at least 3,
or an antonym pair split across the two joined key-driver texts. -/
def is_contradictory (o1 o2 : AgentOutput) : Bool :=
  let risk1 := risk_levels_get (strLower o1.risk_level)
  let risk2 := risk_levels_get (strLower o2.risk_level)
  if 3 ≤ (risk1 - risk2).natAbs then true
  else
    let drivers1 := strLower (String.intercalate " " o1.key_drivers)
    let drivers2 := strLower (String.intercalate " " o2.key_drivers)
    opposite_pairs.any (fun p =>
      (strContains drivers1 p.1 && strContains drivers2 p.2) ||
      (strContains drivers1 p.2 && strContains drivers2 p.1))

/-- The dict comprehension `{output.agent_id: output for output in
agent_outputs}`: the last output with a given id wins. -/
def agent_dict_get (agent_outputs : List AgentOutput) (id : String) : Option AgentOutput :=
  (agent_outputs.filter (fun o => o.agent_id == id)).getLast?

/-- Rules whose both ids are present and whose outputs contradict, in
rule order; the loop body of `check_contradictions`. -/
def matched_rules (agent_outputs : List AgentOutput) : List ((String × String) × String) :=
  CONTRADICTION_RULES.filter (fun r =>
    match agent_dict_get agent_outputs r.1.1, agent_dict_get agent_outputs r.1.2 with
    | some o1, some o2 => is_contradictory o1 o2
    | _, _ => false)

/-- `CircuitBreaker.check_contradictions`: fewer than two outputs give no
event; otherwise the matched rules are aggregated into one event whose
conflicting-agent list is the deduplicated union of the matched pairs and
whose arbiter is the first matched rule's arbiter. -/
def check_contradictions (agent_outputs : List AgentOutput) : Option CircuitBreakerEvent :=
  if agent_outputs.length < 2 then none
  else
    match matched_rules agent_outputs with
    | [] => none
    | m :: rest =>
      some
        { event := "CONTRADICTION_DETECTED"
          conflicting_agents := (((m :: rest).map (fun r => [r.1.1, r.1.2])).flatten).dedup
          arbiter := m.2
          action := "REWEIGHT_AND_REEVALUATE"
          contradiction_count := (m :: rest).length }

/- ===== ConfidenceEngine (src/fin_neurosim/core/confidence_engine.py) ===== -/

/-- `ConfidenceEngine.SOURCE_RELIABILITY` lookup with its `"default"`
entry 0.70 as fallback. -/
def SOURCE_RELIABILITY_get (name : String) : ℚ :=
  if name = "Reuters" then 95/100
  else if name = "Bloomberg" then 95/100
  else if name = "Financial Times" then 9/10
  else if name = "Wall Street Journal" then 9/10
  else if name = "FRED" then 98/100
  else if name = "Alpha Vantage" then 85/100
  else if name = "Tavily" then 8/10
  else if name = "NewsAPI" then 75/100
  else 7/10

/-- The constant `SOURCE_RELIABILITY["default"]`. -/
def default_source_reliability : ℚ := 7/10

/-- `ConfidenceEngine._calculate_source_reliability`: freshness-weighted
mean of static reliability times the source's own reliability, falling
back to the default on an empty list or non-positive total weight. -/
def calculate_source_reliability (source_summary : List SourceSummary) : ℚ :=
  if source_summary.isEmpty then default_source_reliability
  else
    let total_reliability :=
      (source_summary.map (fun s => SOURCE_RELIABILITY_get s.source * s.reliability * s.freshness)).sum
    let total_weight := (source_summary.map (fun s => s.freshness)).sum
    if 0 < total_weight then total_reliability / total_weight
    else default_source_reliability

/-- Last-binding-wins lookup in an association list; the dict semantics
of the Python confidence map. -/
def dict_get (m : List (String × ℚ)) (k : String) : Option ℚ :=
  m.reverse.lookup k

/-- `ConfidenceEngine._calculate_data_freshness`: mean of the output's
own mean source freshness (0.5 without sources) and the context's
`"overall"` freshness (default 0.5), clamped. -/
def calculate_data_freshness (o : AgentOutput) (context_freshness : List (String × ℚ)) : ℚ :=
  let agent_freshness :=
    if o.source_summary.isEmpty then 1/2
    else (o.source_summary.map (fun s => s.freshness)).sum / o.source_summary.length
  let context_fresh := (dict_get context_freshness "overall").getD (1/2)
  clamp01 ((agent_freshness + context_fresh) / 2)

/-- `ConfidenceEngine.compute_dynamic_confidence`: the confidence map,
one entry per output keyed by agent id, holding the clamped product of
base confidence, source reliability, data freshness and the freshness
factor (whose Python default is 0.95). -/
def compute_dynamic_confidence (agent_outputs : List AgentOutput)
    (freshness_factor : ℚ) (context_freshness : List (String × ℚ)) : List (String × ℚ) :=
  agent_outputs.map (fun o =>
    (o.agent_id,
     clamp01 (o.confidence * calculate_source_reliability o.source_summary *
       calculate_data_freshness o context_freshness * freshness_factor)))

/-- Risk ordinals of all outputs, `risk_levels.get(risk_level.lower(), 2)`
in `calculate_inter_agent_agreement`, as real numbers. -/
def risk_values (agent_outputs : List AgentOutput) : List ℝ :=
  agent_outputs.map (fun o => ((risk_levels_get (strLower o.risk_level) : ℤ) : ℝ))

/-- Population mean of a list of reals. -/
noncomputable def pop_mean (vals : List ℝ) : ℝ := vals.sum / vals.length

/-- Population variance, `sum((x - mean)^2)/len`. -/
noncomputable def pop_variance (vals : List ℝ) : ℝ :=
  ((vals.map (fun x => (x - pop_mean vals) ^ 2)).sum) / vals.length

/-- Population standard deviation, `variance ** 0.5`. -/
noncomputable def pop_std_dev (vals : List ℝ) : ℝ := Real.sqrt (pop_variance vals)

/-- Python `max(0.0, min(1.0, x))` over the reals. -/
noncomputable def clamp01R (x : ℝ) : ℝ := max 0 (min 1 x)

/-- `ConfidenceEngine.calculate_inter_agent_agreement`: 1.0 for fewer
than two outputs, else `max(0, min(1, 1 - min(1, std_dev / 2)))` over the
risk ordinals. -/
noncomputable def calculate_inter_agent_agreement (agent_outputs : List AgentOutput) : ℝ :=
  if agent_outputs.length < 2 then 1
  else
    let vals := risk_values agent_outputs
    if 1 < vals.length then
      max 0 (min 1 (1 - min 1 (pop_std_dev vals / 2)))
    else 1

/- ===== time_utils (src/fin_neurosim/utils/time_utils.py) ===== -/

/-- `calculate_freshness_score`: timestamps are seconds, the age is
converted to hours, and freshness interpolates linearly from 1 at age 0
to 0 at `max_age_hours`. -/
def calculate_freshness_score (timestamp : ℚ) (max_age_hours : ℕ) (reference_time : ℚ) : ℚ :=
  let age_hours := (reference_time - timestamp) / 3600
  if age_hours ≤ 0 then 1
  else if (max_age_hours : ℚ) ≤ age_hours then 0
  else clamp01 (1 - age_hours / max_age_hours)

/- ===== Action-plan parsing (llm/stage2_llama.py, agents/synthesis_agent.py) ===== -/

/-- One entry of the provider-supplied `action_plan` list: a dict (with
possibly missing keys), a plain string, or any other value. -/
inductive ActionItem
  | dict (priority action rationale : Option String)
  | str (s : String)
  | other
deriving DecidableEq

/-- The default plan `Stage2Llama._parse_action_plan` builds when the
provider supplies nothing and the stage-1 risk is critical or high. -/
def stage2_default_high_plan : ActionPlan :=
  { priority := "high"
    action := "Piyasayı yakından izleyin ve risk yönetimi protokollerini aktifleştirin"
    rationale := "Yüksek risk seviyesi tespit edildi, dikkatli olunmalı" }

/-- The default plan `Stage2Llama._parse_action_plan` appends when the
supplied entries all fail to parse. -/
def stage2_default_generic_plan : ActionPlan :=
  { priority := "medium"
    action := "Risk analizi tamamlandı. Piyasa koşullarını düzenli olarak izleyin."
    rationale := "Detaylı aksiyon planı üretilemedi, genel öneri" }

/-- Loop body of `Stage2Llama._parse_action_plan`: dict entries are kept
when their stripped action text is non-empty (with priority validated
and rationale defaulted), string entries when non-blank. -/
def stage2_parse_item (acc : List ActionPlan) (item : ActionItem) : List ActionPlan :=
  match item with
  | .dict p a r =>
    let action := (a.getD "").trim
    let rationale := (r.getD "").trim
    let priority := strLower ((p.getD "medium").trim)
    if action ≠ "" then
      acc ++ [{ priority :=
                  if priority = "immediate" ∨ priority = "high" ∨
                     priority = "medium" ∨ priority = "low" then priority else "medium"
                action := action
                rationale := if rationale ≠ "" then rationale else "LLM tarafından önerildi" }]
    else acc
  | .str s =>
    if s.trim ≠ "" then
      acc ++ [{ priority := "medium", action := s.trim, rationale := "LLM tarafından önerildi" }]
    else acc
  | .other => acc

/-- `Stage2Llama._parse_action_plan` (Mode B), with `last_stage1_risk`
standing for `self._last_stage1_risk`: an empty input returns the
default high-risk plan only when the stage-1 risk was critical or high,
otherwise the empty list; a non-empty input is parsed entry-wise with a
generic default appended if nothing parsed. -/
def stage2_parse_action_plan (action_plan_data : List ActionItem) (last_stage1_risk : String) :
    List ActionPlan :=
  if action_plan_data.isEmpty then
    if last_stage1_risk = "critical" ∨ last_stage1_risk = "high" then [stage2_default_high_plan]
    else []
  else
    let action_plans := action_plan_data.foldl stage2_parse_item []
    if action_plans.isEmpty then [stage2_default_generic_plan] else action_plans

/-- Loop body of `SynthesisAgent._parse_action_plan`: every dict entry
is kept as is (missing keys defaulted), every string entry becomes a
medium-priority plan, anything else is skipped. -/
def synthesis_parse_item (acc : List ActionPlan) (item : ActionItem) : List ActionPlan :=
  match item with
  | .dict p a r =>
    acc ++ [{ priority := p.getD "medium", action := a.getD "", rationale := r.getD "" }]
  | .str s =>
    acc ++ [{ priority := "medium", action := s, rationale := "LLM tarafından önerildi" }]
  | .other => acc

/-- `SynthesisAgent._parse_action_plan` (Mode A): the entries parsed
one by one; no default entry is ever synthesized. -/
def synthesis_parse_action_plan (action_plan_data : List ActionItem) : List ActionPlan :=
  action_plan_data.foldl synthesis_parse_item []

/- ===== ModelLoader and Mode B orchestration (llm/model_loader.py, llm/stage2_llama.py, core/orchestrator_hf.py) ===== -/

/-- `ModelLoader` state: the name of the resident model, if any (the
model, tokenizer and name fields are set and cleared together). -/
def unload_model (s : Option String) : Option String :=
  if s.isSome then none else s

/-- `ModelLoader.is_model_loaded`: residency, optionally scoped to one
model name. -/
def is_model_loaded (s : Option String) (model_name : Option String) : Bool :=
  match model_name with
  | none => s.isSome
  | some n => s == some n

/-- `ModelLoader.load_model` under an environment `ok` telling which
model identities load successfully: a resident model is unloaded first;
a successful attempt installs the new name, a failed one raises leaving
nothing resident. -/
def load_model (ok : String → Bool) (s : Option String) (model_name : String) :
    Option String × Bool :=
  let s1 := if s.isSome then unload_model s else s
  if ok model_name then (some model_name, true) else (s1, false)

/-- `Stage2Llama.MODEL_NAMES`, the ordered fallback identities. -/
def MODEL_NAMES : List String :=
  ["mistralai/Mistral-7B-Instruct-v0.2",
   "mistralai/Mistral-7B-v0.3",
   "microsoft/Phi-3-medium-4k-instruct",
   "meta-llama/Meta-Llama-3-8B-Instruct"]

/-- The fallback loop in `Stage2Llama.synthesize`: try each identity in
order, stop at the first success, raise (`Except.error`) when every
attempt failed. -/
def load_with_fallback (ok : String → Bool) (s : Option String) :
    List String → Option String × Except Unit String
  | [] => (s, .error ())
  | n :: rest =>
    match load_model ok s n with
    | (s1, true) => (s1, .ok n)
    | (s1, false) => load_with_fallback ok s1 rest

/-- `FinNeuroSimOrchestratorHF.process_query` (Mode B) as a state
machine over the loader state. `pre` is the combined outcome of the
intent, context and compression steps (which do not touch the loader),
`stage1` and `stage2` the loader-state transformations and outcomes of
the two model calls. The `except` handler unloads the model and
re-raises; after each successful stage the model is unloaded. -/
def process_query_hf (pre : Except String Unit)
    (stage1 stage2 : Option String → Option String × Except String Unit)
    (s0 : Option String) : Option String × Except String Unit :=
  match pre with
  | .error e => (unload_model s0, .error e)
  | .ok _ =>
    match stage1 s0 with
    | (s1, .error e) => (unload_model s1, .error e)
    | (s1, .ok _) =>
      let s2 := unload_model s1
      match stage2 s2 with
      | (s3, .error e) => (unload_model s3, .error e)
      | (s3, .ok _) => (unload_model s3, .ok ())

/-- `Stage1Mistral` produces its `AgentOutput` with this constant
`agent_id`. -/
def STAGE1_AGENT_ID : String := "Stage1Mistral"

/-- The read `confidence_metrics.get("data_freshness", 0.5)` in
`Stage2Llama.synthesize` that fills `FinalReport.data_freshness_score`. -/
def stage2_data_freshness_score (confidence_metrics : List (String × ℚ)) : ℚ :=
  (dict_get confidence_metrics "data_freshness").getD (1/2)

/- ===== ContextBuilder bucket classification (core/context_builder.py) ===== -/

/-- A fan-out payload dict; values are opaque strings, only key presence
drives the classification. -/
abbrev Payload := List (String × String)

/-- Python `key in result`. -/
def has_key (p : Payload) (k : String) : Bool := p.any (fun kv => kv.1 == k)

/-- The three buckets of the context dict with their empty defaults. -/
structure ContextBuckets where
  market_data : List Payload
  macro_data : Payload
  news_data : Payload
deriving DecidableEq

/-- Python `dict.update`: right-hand keys overwrite. -/
def dict_update (d r : Payload) : Payload :=
  d.filter (fun kv => !(has_key r kv.1)) ++ r

/-- The classification of one payload in `build_context`: the market
branch fires on a `"symbol"` or `"error"` key and keeps the payload only
when `"error"` is absent; otherwise region-like payloads merge into the
macro bucket and results-like payloads replace the news bucket. -/
def categorize_result (ctx : ContextBuckets) (result : Payload) : ContextBuckets :=
  if has_key result "symbol" || has_key result "error" then
    if !(has_key result "error") then
      { ctx with market_data := ctx.market_data ++ [result] }
    else ctx
  else if has_key result "series_id" || has_key result "region" then
    { ctx with macro_data := dict_update ctx.macro_data result }
  else if has_key result "results" || has_key result "query" then
    { ctx with news_data := result }
  else ctx

/-- The aggregation loop of `build_context` over the gathered payloads,
starting from the empty buckets. -/
def build_context_buckets (results : List Payload) : ContextBuckets :=
  results.foldl categorize_result { market_data := [], macro_data := [], news_data := [] }

/- ===== Helper lemmas ===== -/

/-- Clamping is the identity on values already in the unit interval. -/
theorem clamp01_of_mem (x : ℚ) (h0 : 0 ≤ x) (h1 : x ≤ 1) : clamp01 x = x := by
  unfold clamp01
  rw [min_eq_right h1, max_eq_right h0]

/-- The clamped value is never below 0. -/
theorem clamp01_nonneg (x : ℚ) : 0 ≤ clamp01 x := le_max_left 0 _

/-- The clamped value is never above 1. -/
theorem clamp01_le_one (x : ℚ) : clamp01 x ≤ 1 := by
  unfold clamp01
  rcases le_total 1 x with h | h
  · rw [min_eq_left h]
    norm_num
  · rw [min_eq_right h]
    exact max_le (by norm_num) h

/-- A payload carrying an `"error"` key leaves the buckets unchanged: the
market branch fires and drops it. -/
theorem categorize_error_skip (ctx : ContextBuckets) (p : Payload)
    (h : has_key p "error" = true) : categorize_result ctx p = ctx := by
  unfold categorize_result
  rw [h]
  simp

/-- Filtering out the error payloads first does not change the fold. -/
theorem build_fold_filter (results : List Payload) (ctx : ContextBuckets) :
    (results.filter (fun p => !(has_key p "error"))).foldl categorize_result ctx
      = results.foldl categorize_result ctx := by
  induction results generalizing ctx with
  | nil => rfl
  | cons p t ih =>
    rw [List.filter_cons]
    by_cases h : has_key p "error" = true
    · simp only [h, Bool.not_true, Bool.false_eq_true, if_false]
      rw [List.foldl_cons, categorize_error_skip ctx p h]
      exact ih ctx
    · have h2 : has_key p "error" = false := by
        cases hk : has_key p "error"
        · rfl
        · exact absurd hk h
      simp only [h2, Bool.not_false, if_true]
      rw [List.foldl_cons, List.foldl_cons]
      exact ih (categorize_result ctx p)

/-- Lookup misses when no binding carries the key. -/
theorem lookup_none_of_no_key (m : List (String × ℚ)) (k : String)
    (h : ∀ p ∈ m, p.1 ≠ k) : m.lookup k = none := by
  induction m with
  | nil => rfl
  | cons a t ih =>
    have ha : a.1 ≠ k := h a (List.mem_cons_self a t)
    have hb : (k == a.1) = false := beq_eq_false_iff_ne.mpr (Ne.symm ha)
    simp only [List.lookup, hb]
    exact ih (fun p hp => h p (List.mem_cons_of_mem a hp))

/- ===== Claim theorems ===== -/

/-- C8: the per-category freshness function is exactly linear in data
age. For any max age M > 0 (hours): age 0 gives score 1, any age at or
beyond M gives 0, age M/2 gives exactly 1/2, and strictly intermediate
ages interpolate linearly as 1 - age/M. -/
theorem freshness_score_linear (M : ℕ) (ts ref : ℚ) (hM : 0 < M) :
    ((ref - ts) / 3600 = 0 → calculate_freshness_score ts M ref = 1)
    ∧ ((M : ℚ) ≤ (ref - ts) / 3600 → calculate_freshness_score ts M ref = 0)
    ∧ ((ref - ts) / 3600 = (M : ℚ) / 2 → calculate_freshness_score ts M ref = 1/2)
    ∧ (0 < (ref - ts) / 3600 → (ref - ts) / 3600 < (M : ℚ) →
        calculate_freshness_score ts M ref = 1 - ((ref - ts) / 3600) / M) := by
  have hMQ : (0 : ℚ) < M := by exact_mod_cast hM
  have hMne : (M : ℚ) ≠ 0 := ne_of_gt hMQ
  unfold calculate_freshness_score
  refine ⟨?_, ?_, ?_, ?_⟩
  · intro h
    rw [h]
    norm_num
  · intro h
    have hpos : ¬ ((ref - ts) / 3600 ≤ 0) := by
      push_neg
      exact lt_of_lt_of_le hMQ h
    rw [if_neg hpos, if_pos h]
  · intro h
    have hpos : ¬ ((ref - ts) / 3600 ≤ 0) := by
      push_neg
      rw [h]
      positivity
    have hlt : ¬ ((M : ℚ) ≤ (ref - ts) / 3600) := by
      push_neg
      rw [h]
      linarith
    rw [if_neg hpos, if_neg hlt, h]
    rw [show ((M : ℚ) / 2 / M) = 1/2 by field_simp; ring]
    unfold clamp01
    norm_num
  · intro h1 h2
    have hpos : ¬ ((ref - ts) / 3600 ≤ 0) := by push_neg; exact h1
    have hlt : ¬ ((M : ℚ) ≤ (ref - ts) / 3600) := by push_neg; exact h2
    rw [if_neg hpos, if_neg hlt]
    apply clamp01_of_mem
    · have : (ref - ts) / 3600 / M < 1 := (div_lt_one hMQ).mpr h2
      linarith
    · have : 0 < (ref - ts) / 3600 / M := div_pos h1 hMQ
      linarith

/-- C8 witness: with a 24-hour max age, a data point exactly 12 hours
(43200 seconds) old scores exactly 1/2. -/
theorem freshness_score_linear_witness :
    calculate_freshness_score 0 24 43200 = 1/2 :=
  (freshness_score_linear 24 0 43200 (by norm_num)).2.2.1 (by norm_num)

/-- C10: every fan-out payload carrying an `"error"` key is discarded by
the bucket classification whatever other keys it carries (the market
branch catches it first and drops it), so the buckets equal those built
from the error-free payloads alone; a fully failed branch leaves every
bucket at its empty default. -/
theorem error_payloads_discarded (results : List Payload) :
    build_context_buckets (results.filter (fun p => !(has_key p "error")))
      = build_context_buckets results
    ∧ ((∀ p ∈ results, has_key p "error" = true) →
        build_context_buckets results
          = { market_data := [], macro_data := [], news_data := [] }) := by
  constructor
  · exact build_fold_filter results _
  · intro h
    have hfe : results.filter (fun p => !(has_key p "error")) = [] := by
      apply List.filter_eq_nil_iff.mpr
      intro p hp
      simp [h p hp]
    unfold build_context_buckets
    rw [← build_fold_filter results { market_data := [], macro_data := [], news_data := [] }]
    rw [hfe]
    rfl

/-- C10 witness: a failed macro payload and a failed news payload leave
all three buckets at their empty defaults. -/
theorem error_payloads_discarded_witness :
    build_context_buckets
        [[("error", "timeout"), ("region", "US")], [("error", "timeout"), ("results", "")]]
      = { market_data := [], macro_data := [], news_data := [] } :=
  (error_payloads_discarded _).2 (by decide)

/-- C3: in Mode B, when the stage-1 call raises, `process_query` leaves
the loader empty (`is_model_loaded()` is false) and re-raises the very
same error. -/
theorem stage1_failure_unloads_and_propagates
    (stage1 stage2 : Option String → Option String × Except String Unit)
    (s0 : Option String) (e : String)
    (h : (stage1 s0).2 = .error e) :
    is_model_loaded (process_query_hf (.ok ()) stage1 stage2 s0).1 none = false
    ∧ (process_query_hf (.ok ()) stage1 stage2 s0).2 = .error e := by
  unfold process_query_hf
  rcases hst : stage1 s0 with ⟨s1, r1⟩
  rw [hst] at h
  simp only at h
  subst h
  cases s1 <;> simp [unload_model, is_model_loaded]

/-- C3 witness: a stage-1 call that loads Mistral and then raises a CUDA
error leaves nothing loaded, and the error reaches the caller. -/
theorem stage1_failure_unloads_and_propagates_witness :
    is_model_loaded
        (process_query_hf (.ok ())
          (fun _ => (some "mistralai/Mistral-7B-v0.3", .error "CUDA out of memory"))
          (fun s => (s, .ok ())) none).1 none = false
    ∧ (process_query_hf (.ok ())
          (fun _ => (some "mistralai/Mistral-7B-v0.3", .error "CUDA out of memory"))
          (fun s => (s, .ok ())) none).2 = .error "CUDA out of memory" :=
  stage1_failure_unloads_and_propagates _ _ none "CUDA out of memory" rfl

/-- C4: the fallback loader tries the ordered identities, stops at the
first success (which becomes the resident model), and raises exactly
when every identity fails. -/
theorem load_fallback_first_success (ok : String → Bool) (s : Option String)
    (names : List String) :
    ((load_with_fallback ok s names).2 = .error () ↔ ∀ n ∈ names, ok n = false)
    ∧ (∀ n, names.find? ok = some n →
        (load_with_fallback ok s names).2 = .ok n
          ∧ (load_with_fallback ok s names).1 = some n)
    ∧ (∀ n, (load_with_fallback ok s names).2 = .ok n → names.find? ok = some n) := by
  induction names generalizing s with
  | nil => simp [load_with_fallback]
  | cons m rest ih =>
    by_cases hm : ok m = true
    · have hv : load_with_fallback ok s (m :: rest) = (some m, .ok m) := by
        show (match load_model ok s m with
              | (s1, true) => (s1, Except.ok m)
              | (s1, false) => load_with_fallback ok s1 rest) = (some m, .ok m)
        simp [load_model, hm]
      refine ⟨?_, ?_, ?_⟩
      · rw [hv]
        simp only [List.mem_cons]
        constructor
        · intro habs
          cases habs
        · intro hall
          have := hall m (Or.inl rfl)
          rw [hm] at this
          cases this
      · intro n hfind
        rw [List.find?_cons_of_pos _ hm] at hfind
        rw [hv]
        cases hfind
        exact ⟨rfl, rfl⟩
      · intro n hok
        rw [hv] at hok
        cases hok
        rw [List.find?_cons_of_pos _ hm]
    · have hm2 : ok m = false := by
        cases hk : ok m
        · rfl
        · exact absurd hk hm
      have hv : load_with_fallback ok s (m :: rest)
          = load_with_fallback ok (if s.isSome then unload_model s else s) rest := by
        show (match load_model ok s m with
              | (s1, true) => (s1, Except.ok m)
              | (s1, false) => load_with_fallback ok s1 rest)
            = load_with_fallback ok (if s.isSome then unload_model s else s) rest
        simp [load_model, hm2]
      obtain ⟨ih1, ih2, ih3⟩ := ih (if s.isSome then unload_model s else s)
      refine ⟨?_, ?_, ?_⟩
      · rw [hv, ih1]
        simp only [List.mem_cons]
        constructor
        · intro hall n hn
          rcases hn with rfl | hn
          · exact hm2
          · exact hall n hn
        · intro hall n hn
          exact hall n (Or.inr hn)
      · intro n hfind
        rw [List.find?_cons_of_neg _ (by simp [hm2])] at hfind
        rw [hv]
        exact ih2 n hfind
      · intro n hok
        rw [hv] at hok
        rw [List.find?_cons_of_neg _ (by simp [hm2])]
        exact ih3 n hok

/-- C4 witness: when only the third identity loads, the loop stops there
with that model resident; when none loads, the loop raises. -/
theorem load_fallback_first_success_witness :
    (load_with_fallback (fun n => n == "microsoft/Phi-3-medium-4k-instruct") none
        MODEL_NAMES).2 = .ok "microsoft/Phi-3-medium-4k-instruct"
    ∧ (load_with_fallback (fun n => n == "microsoft/Phi-3-medium-4k-instruct") none
        MODEL_NAMES).1 = some "microsoft/Phi-3-medium-4k-instruct" :=
  (load_fallback_first_success (fun n => n == "microsoft/Phi-3-medium-4k-instruct")
    none MODEL_NAMES).2.1 "microsoft/Phi-3-medium-4k-instruct" (by decide)

/-- C9: the confidence map is keyed only by agent ids, so the
`"data_freshness"` read in `Stage2Llama.synthesize` always takes its 0.5
default; in particular Mode B's report carries data_freshness_score 1/2
for every query, since stage 1 labels its output `"Stage1Mistral"`. -/
theorem data_freshness_score_constant_half :
    (∀ (agent_outputs : List AgentOutput) (freshness_factor : ℚ)
        (ctx : List (String × ℚ)),
      (∀ o ∈ agent_outputs, o.agent_id ≠ "data_freshness") →
      stage2_data_freshness_score
        (compute_dynamic_confidence agent_outputs freshness_factor ctx) = 1/2)
    ∧ (∀ (o : AgentOutput) (freshness_factor : ℚ) (ctx : List (String × ℚ)),
      o.agent_id = STAGE1_AGENT_ID →
      stage2_data_freshness_score
        (compute_dynamic_confidence [o] freshness_factor ctx) = 1/2) := by
  have main : ∀ (agent_outputs : List AgentOutput) (freshness_factor : ℚ)
      (ctx : List (String × ℚ)),
      (∀ o ∈ agent_outputs, o.agent_id ≠ "data_freshness") →
      stage2_data_freshness_score
        (compute_dynamic_confidence agent_outputs freshness_factor ctx) = 1/2 := by
    intro agent_outputs freshness_factor ctx h
    unfold stage2_data_freshness_score dict_get
    rw [lookup_none_of_no_key]
    · rfl
    · intro p hp
      rw [List.mem_reverse] at hp
      unfold compute_dynamic_confidence at hp
      rcases List.mem_map.mp hp with ⟨o, ho, rfl⟩
      exact h o ho
  refine ⟨main, ?_⟩
  intro o freshness_factor ctx hid
  apply main
  intro o2 ho2
  rcases List.mem_singleton.mp ho2 with rfl
  rw [hid]
  intro habs
  exact absurd habs (by decide)

/-- C9 witness: a concrete stage-1 output yields the constant 1/2. -/
theorem data_freshness_score_constant_half_witness :
    stage2_data_freshness_score
      (compute_dynamic_confidence
        [{ agent_id := "Stage1Mistral", signal_type := "anomaly", risk_level := "high",
           confidence := 8/10, key_drivers := ["liquidity stress"], source_summary := [],
           reasoning := "stress signals" }]
        (95/100) [("overall", 9/10)]) = 1/2 :=
  data_freshness_score_constant_half.2 _ (95/100) [("overall", 9/10)] rfl

/-- One Mode A parse step only ever appends to its accumulator. -/
theorem synthesis_parse_item_append (acc : List ActionPlan) (item : ActionItem) :
    synthesis_parse_item acc item = acc ++ synthesis_parse_item [] item := by
  cases item <;> simp [synthesis_parse_item]

/-- The Mode A fold factors through the empty accumulator. -/
theorem synthesis_fold_acc (data : List ActionItem) (acc : List ActionPlan) :
    data.foldl synthesis_parse_item acc = acc ++ data.foldl synthesis_parse_item [] := by
  induction data generalizing acc with
  | nil => simp
  | cons i t ih =>
    rw [List.foldl_cons, List.foldl_cons, ih (synthesis_parse_item acc i),
      ih (synthesis_parse_item [] i), synthesis_parse_item_append acc i]
    simp

/-- C2 counterexample: with no provider-supplied entries, Mode B's
parser returns the empty action plan when the stage-1 risk was
`"medium"`, and Mode A's parser returns the empty action plan
unconditionally — no default entry is synthesized. -/
theorem action_plan_empty_counterexample :
    stage2_parse_action_plan [] "medium" = []
    ∧ synthesis_parse_action_plan [] = [] := by
  constructor
  · simp [stage2_parse_action_plan]
  · rfl

/-- C2 amended: Mode B's parser returns a non-empty action plan exactly
when the provider supplied at least one entry or the remembered stage-1
risk level is critical or high; Mode A's parser returns the empty plan
exactly when the provider supplied no dict or string entry, and never
synthesizes a default. -/
theorem action_plan_nonempty_characterization (data : List ActionItem) (risk : String) :
    (stage2_parse_action_plan data risk ≠ [] ↔
      data ≠ [] ∨ risk = "critical" ∨ risk = "high")
    ∧ (synthesis_parse_action_plan data = [] ↔ ∀ i ∈ data, i = ActionItem.other) := by
  constructor
  · cases data with
    | nil =>
      by_cases hc : risk = "critical" ∨ risk = "high"
      · simp [stage2_parse_action_plan, hc]
      · simp [stage2_parse_action_plan, hc]
    | cons i t =>
      unfold stage2_parse_action_plan
      simp only [List.isEmpty_cons, Bool.false_eq_true, if_false]
      constructor
      · intro _
        exact Or.inl (List.cons_ne_nil i t)
      · intro _
        by_cases hp : ((i :: t).foldl stage2_parse_item []).isEmpty = true
        · rw [if_pos hp]
          simp [stage2_default_generic_plan]
        · rw [if_neg hp]
          intro habs
          rw [habs] at hp
          exact hp rfl
  · induction data with
    | nil => simp [synthesis_parse_action_plan]
    | cons i t ih =>
      unfold synthesis_parse_action_plan
      rw [List.foldl_cons, synthesis_fold_acc]
      unfold synthesis_parse_action_plan at ih
      constructor
      · intro h
        have hsplit := List.append_eq_nil.mp h
        intro j hj
        rcases List.mem_cons.mp hj with rfl | hj2
        · cases j with
          | dict p a r => simp [synthesis_parse_item] at hsplit
          | str s => simp [synthesis_parse_item] at hsplit
          | other => rfl
        · exact (ih.mp hsplit.2) j hj2
      · intro h
        have hi : i = ActionItem.other := h i (List.mem_cons_self i t)
        rw [hi]
        have ht : t.foldl synthesis_parse_item [] = [] :=
          ih.mpr (fun j hj => h j (List.mem_cons_of_mem i hj))
        rw [ht]
        rfl

/-- C2 amended witness: with no entries and a critical stage-1 risk,
Mode B's parser returns a non-empty plan. -/
theorem action_plan_nonempty_characterization_witness :
    stage2_parse_action_plan [] "critical" ≠ [] :=
  (action_plan_nonempty_characterization [] "critical").1.mpr (Or.inr (Or.inl rfl))

/-- C6: the dynamic confidence of each output is
`clamp01(base × reliability × dataFreshness × 0.95)` (0.95 the default
freshness factor), where the reliability is the source-freshness-weighted
mean of static reliability × own reliability, falling back to 0.70 when
no sources are attached or the freshness weights sum to zero; every
score in the map lies in [0, 1]. -/
theorem confidence_formula_and_bounds
    (agent_outputs : List AgentOutput) (ctx : List (String × ℚ)) (o : AgentOutput)
    (ho : o ∈ agent_outputs) :
    ((o.agent_id,
        clamp01 (o.confidence * calculate_source_reliability o.source_summary *
          calculate_data_freshness o ctx * (95/100)))
      ∈ compute_dynamic_confidence agent_outputs (95/100) ctx)
    ∧ (o.source_summary = [] → calculate_source_reliability o.source_summary = 7/10)
    ∧ ((o.source_summary.map (fun s => s.freshness)).sum = 0 →
        calculate_source_reliability o.source_summary = 7/10)
    ∧ (0 < (o.source_summary.map (fun s => s.freshness)).sum →
        calculate_source_reliability o.source_summary
          = (o.source_summary.map
              (fun s => SOURCE_RELIABILITY_get s.source * s.reliability * s.freshness)).sum
            / (o.source_summary.map (fun s => s.freshness)).sum)
    ∧ (∀ p ∈ compute_dynamic_confidence agent_outputs (95/100) ctx,
        0 ≤ p.2 ∧ p.2 ≤ 1) := by
  refine ⟨?_, ?_, ?_, ?_, ?_⟩
  · unfold compute_dynamic_confidence
    exact List.mem_map_of_mem _ ho
  · intro h
    unfold calculate_source_reliability
    rw [h]
    rfl
  · intro h
    unfold calculate_source_reliability
    by_cases he : o.source_summary.isEmpty = true
    · rw [if_pos he]
      rfl
    · rw [if_neg he]
      simp only [h, lt_irrefl, if_false]
      rfl
  · intro h
    have hne : o.source_summary.isEmpty ≠ true := by
      intro habs
      rw [List.isEmpty_iff.mp habs] at h
      simp at h
    unfold calculate_source_reliability
    rw [if_neg hne, if_pos h]
  · intro p hp
    unfold compute_dynamic_confidence at hp
    rcases List.mem_map.mp hp with ⟨o2, _, rfl⟩
    exact ⟨clamp01_nonneg _, clamp01_le_one _⟩

/-- C6 witness: an output without attached sources takes the constant
fallback reliability 0.70. -/
theorem confidence_formula_and_bounds_witness :
    calculate_source_reliability ([] : List SourceSummary) = 7/10 :=
  (confidence_formula_and_bounds
    [{ agent_id := "Stage1Mistral", signal_type := "anomaly", risk_level := "high",
       confidence := 8/10, key_drivers := [], source_summary := [], reasoning := "r" }]
    [] _ (List.mem_singleton.mpr rfl)).2.1 rfl

/-- C5 counterexample: a low-risk and a critical-risk result whose
identities match no contradiction rule produce no event at all, although
their ordinal difference is 3. -/
theorem low_critical_pair_no_event_counterexample :
    check_contradictions
      [{ agent_id := "Stage1Mistral", signal_type := "anomaly", risk_level := "low",
         confidence := 9/10, key_drivers := [], source_summary := [], reasoning := "a" },
       { agent_id := "SynthesisAgent", signal_type := "trend", risk_level := "critical",
         confidence := 9/10, key_drivers := [], source_summary := [], reasoning := "b" }]
      = none := by
  rfl

/-- C5 amended: for every result list in which both identities of some
contradiction rule resolve to outputs (the last with each identity) with
risk levels low and critical, `check_contradictions` returns exactly one
event whose conflicting-identities list contains both identities. -/
theorem rule_pair_low_critical_one_event
    (agent_outputs : List AgentOutput) (rule : (String × String) × String)
    (hrule : rule ∈ CONTRADICTION_RULES)
    (o1 o2 : AgentOutput)
    (h1 : agent_dict_get agent_outputs rule.1.1 = some o1)
    (h2 : agent_dict_get agent_outputs rule.1.2 = some o2)
    (hr1 : o1.risk_level = "low") (hr2 : o2.risk_level = "critical")
    (hlen : 2 ≤ agent_outputs.length) :
    ∃ ev, check_contradictions agent_outputs = some ev
      ∧ rule.1.1 ∈ ev.conflicting_agents ∧ rule.1.2 ∈ ev.conflicting_agents := by
  have hcontra : is_contradictory o1 o2 = true := by
    have e1 : risk_levels_get (strLower "low") = 1 := rfl
    have e2 : risk_levels_get (strLower "critical") = 4 := rfl
    unfold is_contradictory
    rw [hr1, hr2, e1, e2]
    rw [if_pos (by decide)]
  have hmem : rule ∈ matched_rules agent_outputs := by
    unfold matched_rules
    rw [List.mem_filter]
    refine ⟨hrule, ?_⟩
    rw [h1, h2]
    exact hcontra
  cases hm : matched_rules agent_outputs with
  | nil =>
    rw [hm] at hmem
    cases hmem
  | cons m rest =>
    refine ⟨{ event := "CONTRADICTION_DETECTED"
              conflicting_agents := (((m :: rest).map (fun r => [r.1.1, r.1.2])).flatten).dedup
              arbiter := m.2
              action := "REWEIGHT_AND_REEVALUATE"
              contradiction_count := (m :: rest).length }, ?_, ?_, ?_⟩
    · unfold check_contradictions
      rw [if_neg (by omega), hm]
    · apply List.mem_dedup.mpr
      apply List.mem_flatten.mpr
      refine ⟨[rule.1.1, rule.1.2], ?_, by simp⟩
      apply List.mem_map_of_mem
      rw [← hm]
      exact hmem
    · apply List.mem_dedup.mpr
      apply List.mem_flatten.mpr
      refine ⟨[rule.1.1, rule.1.2], ?_, by simp⟩
      apply List.mem_map_of_mem
      rw [← hm]
      exact hmem

/-- C5 amended witness: a low-risk RiskAgent and a critical-risk
TechnicalAgent — a pair the rule table covers — yield one event holding
both identities. -/
theorem rule_pair_low_critical_one_event_witness :
    ∃ ev, check_contradictions
        [{ agent_id := "RiskAgent", signal_type := "anomaly", risk_level := "low",
           confidence := 9/10, key_drivers := [], source_summary := [], reasoning := "a" },
         { agent_id := "TechnicalAgent", signal_type := "trend", risk_level := "critical",
           confidence := 9/10, key_drivers := [], source_summary := [], reasoning := "b" }]
        = some ev
      ∧ "RiskAgent" ∈ ev.conflicting_agents ∧ "TechnicalAgent" ∈ ev.conflicting_agents :=
  rule_pair_low_critical_one_event _ (("RiskAgent", "TechnicalAgent"), "MacroAgent")
    (by decide) _ _ rfl rfl rfl rfl (by decide)

/-- The code's nested clamp `max 0 (min 1 (1 - min 1 (s/2)))` equals the
spec's `clamp01(1 - s/2)`. -/
theorem nested_clamp_eq (s : ℝ) :
    max 0 (min 1 (1 - min 1 (s / 2))) = clamp01R (1 - s / 2) := by
  unfold clamp01R
  rcases le_total (s / 2) 1 with h | h
  · rw [min_eq_right h]
  · have h0 : (1 : ℝ) - s / 2 ≤ 0 := by linarith
    rw [min_eq_left h, sub_self, min_eq_right (by norm_num : (0 : ℝ) ≤ 1), max_self,
      min_eq_right (by linarith : (1 : ℝ) - s / 2 ≤ 1), max_eq_left h0]

/-- A constant list has population variance zero. -/
theorem variance_zero_of_const (vals : List ℝ) (c : ℝ) (h : ∀ x ∈ vals, x = c) :
    pop_variance vals = 0 := by
  cases vals with
  | nil =>
    unfold pop_variance
    simp
  | cons v t =>
    have hlen : (((v :: t).length : ℕ) : ℝ) ≠ 0 := by
      rw [List.length_cons]
      push_cast
      positivity
    have hmean : pop_mean (v :: t) = c := by
      unfold pop_mean
      rw [List.sum_eq_card_nsmul (v :: t) c h, nsmul_eq_mul]
      field_simp
    unfold pop_variance
    rw [hmean]
    have hz : ((v :: t).map (fun x => (x - c) ^ 2)).sum = 0 := by
      apply List.sum_eq_zero
      intro y hy
      rcases List.mem_map.mp hy with ⟨x, hx, rfl⟩
      rw [h x hx]
      ring
    rw [hz]
    simp

/-- C7: the inter-result agreement equals `clamp01(1 - stddev/2)` over
the risk ordinals, and it is exactly 1.0 whenever all results share one
risk level or only one result is given. -/
theorem agreement_formula (agent_outputs : List AgentOutput) :
    calculate_inter_agent_agreement agent_outputs
      = clamp01R (1 - pop_std_dev (risk_values agent_outputs) / 2)
    ∧ (∀ r, (∀ o ∈ agent_outputs, o.risk_level = r) →
        calculate_inter_agent_agreement agent_outputs = 1)
    ∧ (agent_outputs.length = 1 → calculate_inter_agent_agreement agent_outputs = 1) := by
  have hlenv : (risk_values agent_outputs).length = agent_outputs.length := by
    unfold risk_values
    exact List.length_map _ _
  have hmain : calculate_inter_agent_agreement agent_outputs
      = clamp01R (1 - pop_std_dev (risk_values agent_outputs) / 2) := by
    by_cases hlen : agent_outputs.length < 2
    · have hv : pop_variance (risk_values agent_outputs) = 0 := by
        cases houts : agent_outputs with
        | nil =>
          unfold risk_values pop_variance
          simp
        | cons a t =>
          cases t with
          | nil =>
            apply variance_zero_of_const _ ((risk_levels_get (strLower a.risk_level) : ℤ) : ℝ)
            intro x hx
            unfold risk_values at hx
            rcases List.mem_map.mp hx with ⟨o, ho, rfl⟩
            rcases List.mem_singleton.mp ho with rfl
            rfl
          | cons b t2 =>
            rw [houts] at hlen
            exact absurd hlen (by simp)
      unfold calculate_inter_agent_agreement
      rw [if_pos hlen]
      unfold pop_std_dev
      rw [hv, Real.sqrt_zero]
      unfold clamp01R
      norm_num
    · unfold calculate_inter_agent_agreement
      rw [if_neg hlen]
      have h1 : 1 < (risk_values agent_outputs).length := by omega
      simp only [h1, if_true]
      exact nested_clamp_eq _
  refine ⟨hmain, ?_, ?_⟩
  · intro r h
    have hconst : ∀ x ∈ risk_values agent_outputs,
        x = ((risk_levels_get (strLower r) : ℤ) : ℝ) := by
      intro x hx
      unfold risk_values at hx
      rcases List.mem_map.mp hx with ⟨o, ho, rfl⟩
      rw [h o ho]
    have hv := variance_zero_of_const _ _ hconst
    rw [hmain]
    unfold pop_std_dev
    rw [hv, Real.sqrt_zero]
    unfold clamp01R
    norm_num
  · intro h
    unfold calculate_inter_agent_agreement
    rw [if_pos (by omega)]

/-- C7 witness: two results agreeing on risk level "medium" have
agreement exactly 1. -/
theorem agreement_formula_witness :
    calculate_inter_agent_agreement
      [{ agent_id := "RiskAgent", signal_type := "anomaly", risk_level := "medium",
         confidence := 9/10, key_drivers := [], source_summary := [], reasoning := "a" },
       { agent_id := "MacroAgent", signal_type := "trend", risk_level := "medium",
         confidence := 8/10, key_drivers := [], source_summary := [], reasoning := "b" }] = 1 :=
  (agreement_formula _).2.1 "medium" (by decide)

/-- C1: the sliding-window bound is violated under concurrent callers.
With a registered budget of 1 call per 10 seconds, three interleaved
`wait_if_needed` calls (at times 0, 1 and 2) reach a state whose history
holds two timestamps 0.1 seconds apart: the two suspended callers both
passed the length check against the same un-appended history before
sleeping, and both append after waking. The read-prune-append sequence
is therefore not one atomic critical section per resource name, and more
than `maxCalls` timestamps can fall inside one rolling window. -/
theorem rate_limiter_quota_overrun :
    ∃ s : RLState,
      Relation.ReflTransGen (RLStep ⟨1, 10⟩) ⟨[], [], 0⟩ s
      ∧ (⟨1, 10⟩ : RateLimit).max_calls < count_in_window s.hist (102/10) 10 := by
  have hp0 : ([] : List ℚ) = prune_history 10 0 [] := rfl
  have hp1 : [(0 : ℚ)] = prune_history 10 1 [0] := by
    unfold prune_history
    rw [List.filter_cons, List.filter_nil]
    norm_num
  have hp2 : [(0 : ℚ)] = prune_history 10 2 [0] := by
    unfold prune_history
    rw [List.filter_cons, List.filter_nil]
    norm_num
  have hw1 : wait_time ⟨1, 10⟩ 1 [0] = 91/10 := by
    unfold wait_time oldest_call
    norm_num
  have hw2 : wait_time ⟨1, 10⟩ 2 [0] = 81/10 := by
    unfold wait_time oldest_call
    norm_num
  have s1 : RLStep ⟨1, 10⟩ ⟨[], [], 0⟩ ⟨[0], [], 0⟩ :=
    RLStep.enter_no_wait ⟨[], [], 0⟩ 0 [] le_rfl hp0 (Or.inl (by norm_num))
  have s2 : RLStep ⟨1, 10⟩ ⟨[0], [], 0⟩ ⟨[0], [101/10], 1⟩ :=
    RLStep.enter_wait ⟨[0], [], 0⟩ 1 [0] (101/10) (by norm_num) hp1
      (by norm_num) (by rw [hw1]; norm_num) (by rw [hw1]; norm_num)
  have s3 : RLStep ⟨1, 10⟩ ⟨[0], [101/10], 1⟩ ⟨[0], [101/10, 101/10], 2⟩ :=
    RLStep.enter_wait ⟨[0], [101/10], 1⟩ 2 [0] (101/10) (by norm_num) hp2
      (by norm_num) (by rw [hw2]; norm_num) (by rw [hw2]; norm_num)
  have s4 : RLStep ⟨1, 10⟩ ⟨[0], [101/10, 101/10], 2⟩ ⟨[0, 101/10], [101/10], 101/10⟩ :=
    RLStep.wake_append ⟨[0], [101/10, 101/10], 2⟩ (101/10) (101/10) [101/10]
      (List.mem_cons_self _ _) (by norm_num) le_rfl
      (List.erase_cons_head _ _).symm
  have s5 : RLStep ⟨1, 10⟩ ⟨[0, 101/10], [101/10], 101/10⟩
      ⟨[0, 101/10, 102/10], [], 102/10⟩ :=
    RLStep.wake_append ⟨[0, 101/10], [101/10], 101/10⟩ (101/10) (102/10) []
      (List.mem_cons_self _ _) (by norm_num) (by norm_num)
      (List.erase_cons_head _ _).symm
  refine ⟨⟨[0, 101/10, 102/10], [], 102/10⟩, ?_, ?_⟩
  · exact Relation.ReflTransGen.tail
      (Relation.ReflTransGen.tail
        (Relation.ReflTransGen.tail
          (Relation.ReflTransGen.tail (Relation.ReflTransGen.single s1) s2) s3) s4) s5
  · show 1 < count_in_window [0, 101/10, 102/10] (102/10) 10
    unfold count_in_window
    rw [List.filter_cons, List.filter_cons, List.filter_cons, List.filter_nil]
    rw [if_neg (by norm_num), if_pos (by norm_num), if_pos (by norm_num)]
    norm_num
